import Mathlib

/-!
Shallow embedding of the `lucky1eva/dashboard` repository:
`generate_manifest.py` (manifest builder) and `server.py` (static server
launcher).  File-system interaction is made explicit: a data directory is an
optional list of directory entries (`none` models a nonexistent `data/`
directory), each entry carrying its name and the outcome that
`open` + `json.load` produce on it.  Timestamps (`datetime.now().isoformat()`)
are passed in as an explicit `now` argument.
-/

namespace Dashboard

/-- Outcome of `open(json_file, 'r', encoding='utf-8')` followed by
`json.load(f)` on one directory entry: success, a `json.JSONDecodeError`
with message `msg`, or any other exception (read/permission/encoding error)
with message `msg`. -/
inductive ReadResult where
  | parsed
  | decodeError (msg : String)
  | readError (msg : String)
deriving DecidableEq, Repr

/-- Content of a file in the modelled file system: either raw pre-existing
bytes, or the document `json.dump(manifest, f, indent=2, ensure_ascii=False)`
writes, represented structurally by the manifest record it serializes
(the exact byte-level rendering is not inspected by any property). -/
inductive FileData where
  | raw (bytes : String)
  | manifestDoc (files : List String) (total_files : Nat)
      (generated_at : String) (note : String)
deriving DecidableEq, Repr

/-- One entry of the `data/` directory: its filename, its content, and what
reading + JSON-parsing it yields. -/
structure DFile where
  name : String
  data : FileData
  outcome : ReadResult
deriving DecidableEq, Repr

/-- The `data/` directory: `none` models a nonexistent directory, `some fs`
an existing directory whose entries are listed in `fs` (the list order models
the arbitrary filesystem enumeration order). -/
abbrev DataDir := Option (List DFile)

/-- The entries `Path("data").glob("*.json")` iterates over when the
directory may be absent: pathlib's glob yields nothing for a nonexistent
directory rather than raising. -/
def dirFiles : DataDir → List DFile
  | none => []
  | some fs => fs

/-- Python's string comparison `s <= t`, on the underlying code-point
sequences: lexicographic, each position compared by Unicode code point. -/
def lexLe : List Char → List Char → Bool
  | [], _ => true
  | _ :: _, [] => false
  | a :: as, b :: bs =>
    if a.toNat < b.toNat then true
    else if b.toNat < a.toNat then false
    else lexLe as bs

/-- The comparison `list.sort()` uses on filename strings, as a relation. -/
def pyLe (s t : String) : Prop :=
  lexLe s.data t.data = true

instance : DecidableRel pyLe :=
  fun s t => Bool.decEq (lexLe s.data t.data) true

/-- Name filter of the glob pattern `*.json` (fnmatch translation used by
pathlib): any entry name whose code-point sequence ends in the literal
suffix `.json`. -/
def matchesJsonGlob (name : String) : Bool :=
  List.isSuffixOf ".json".data name.data

/-- The manifest builder's qualifying-file filter, applied identically in
`generate_manifest` and `validate_json_files`:
`f.name != "manifest.json"` over the `*.json` glob matches. -/
def isQualifyingName (name : String) : Bool :=
  matchesJsonGlob name && name != "manifest.json"

/-- The qualifying entries of a directory listing, in enumeration order. -/
def qualifyingFiles (fs : List DFile) : List DFile :=
  fs.filter (fun f => isQualifyingName f.name)

/-- The fixed `note` string of every generated manifest. -/
def manifestNote : String :=
  "Auto-generated file list for Clinical Trials Dashboard"

/-- The manifest record `generate_manifest` builds and serializes. -/
structure Manifest where
  files : List String
  total_files : Nat
  generated_at : String
  note : String
deriving DecidableEq, Repr

/-- Core of `generate_manifest()`: from the names the directory enumeration
produced, keep the qualifying ones, sort them ascending
(`json_files.sort()`, lexicographic string order), and build the manifest
record with the current timestamp. -/
def generate_manifest (names : List String) (now : String) : Manifest :=
  let json_files := names.filter isQualifyingName
  let sorted := List.insertionSort pyLe json_files
  { files := sorted
    total_files := sorted.length
    generated_at := now
    note := manifestNote }

/-- The failure entry `validate_json_files` records for one qualifying file:
`(f.name, str(e))` for a `JSONDecodeError`, `(f.name, "Error reading file: {e}")`
for any other exception, nothing on success. -/
def failureEntry (f : DFile) : Option (String × String) :=
  match f.outcome with
  | .parsed => none
  | .decodeError e => some (f.name, e)
  | .readError e => some (f.name, "Error reading file: " ++ e)

/-- `validate_json_files()`: glob the directory, keep qualifying files,
try to parse each one in a single pass collecting every failure as a
`(filename, reason)` pair, and return `True` exactly when the collected
`invalid_files` list is empty.  The function is total: failures are
collected, never raised. -/
def validate_json_files (fs : List DFile) : List (String × String) × Bool :=
  let json_files := qualifyingFiles fs
  let invalid_files := json_files.filterMap failureEntry
  (invalid_files, invalid_files.isEmpty)

/-- The write `open(manifest_path, 'w') ... json.dump(manifest, ...)`:
the directory afterwards holds every entry other than `manifest.json`
unchanged, plus a fresh `manifest.json` whose content is the serialized
manifest and which parses as JSON. -/
def writeManifestFile (fs : List DFile) (m : Manifest) : List DFile :=
  fs.filter (fun f => f.name != "manifest.json") ++
    [{ name := "manifest.json"
       data := .manifestDoc m.files m.total_files m.generated_at m.note
       outcome := .parsed }]

/-- Full `generate_manifest()` run over a directory state: `mkdir(exist_ok=True)`
makes the directory exist, the glob enumerates it, and the manifest built from
the enumerated names is written to `data/manifest.json`. -/
def generateRun (dir : DataDir) (now : String) : DataDir × Manifest :=
  let fs := dirFiles dir
  let m := generate_manifest (fs.map (fun f => f.name)) now
  (some (writeManifestFile fs m), m)

/-- Result of one run of the builder's `__main__` block. -/
structure RunResult where
  dataDir : DataDir
  generateInvoked : Bool
  validationOk : Bool
  raisedException : Bool
deriving Repr

/-- The `__main__` block of `generate_manifest.py`: run
`validate_json_files()`; if it returned `True`, run `generate_manifest()`;
otherwise print a message and fall off the end of the script.  Neither
branch raises (the model covers runs in which the filesystem write of the
success branch succeeds), so `raisedException` is `false` on both paths. -/
def mainRun (dir : DataDir) (now : String) : RunResult :=
  if (validate_json_files (dirFiles dir)).2 then
    { dataDir := (generateRun dir now).1
      generateInvoked := true
      validationOk := true
      raisedException := false }
  else
    { dataDir := dir
      generateInvoked := false
      validationOk := false
      raisedException := false }

/-- Exit status of a CPython script run: 0 when the top level completes
without an uncaught exception, nonzero otherwise. -/
def exitCode (r : RunResult) : Nat :=
  if r.raisedException then 1 else 0

/-- Lookup of a file in the (possibly absent) data directory. -/
def readDirFile (dir : DataDir) (n : String) : Option DFile :=
  (dirFiles dir).find? (fun f => f.name == n)

/-! ### server.py -/

/-- The fixed port constant of `server.py`. -/
def serverPort : Nat := 8000

/-- The three fixed cross-origin headers `CustomHTTPRequestHandler.end_headers`
sends, in order. -/
def corsHeaders : List (String × String) :=
  [("Access-Control-Allow-Origin", "*"),
   ("Access-Control-Allow-Methods", "GET, POST, OPTIONS"),
   ("Access-Control-Allow-Headers", "Content-Type")]

/-- `CustomHTTPRequestHandler.end_headers`: appends the three CORS headers to
whatever headers the base handler already buffered for this response, then
delegates to `super().end_headers()`, which finalizes (flushes) the header
block.  Its result is the final header list of the response. -/
def end_headers (buffered : List (String × String)) : List (String × String) :=
  buffered ++ corsHeaders

/-- An HTTP response as observed on the wire: status code and finalized
header list. -/
structure HttpResponse where
  status : Nat
  headers : List (String × String)
deriving Repr

/-- Any response the handler emits — file serve, 404, or otherwise:
the base `SimpleHTTPRequestHandler` machinery sends a status line and some
headers, then calls `end_headers`, which is overridden as above. -/
def handlerResponse (status : Nat) (buffered : List (String × String)) :
    HttpResponse :=
  { status := status, headers := end_headers buffered }

/-- The server's JSON-file scan `list(Path('data').glob('*.json'))`: every
entry matching the glob, with no exclusion of `manifest.json`. -/
def serverGlobJson (dataDir : Option (List String)) : List String :=
  (match dataDir with
   | none => []
   | some fs => fs).filter matchesJsonGlob

/-- Result of `start_server()` up to entering the accept loop. -/
structure ServerStart where
  boundPort : Option Nat
  dataDirCreated : Bool
  jsonFiles : List String
  warnedNoJson : Bool
deriving Repr

/-- `start_server()`: if `index.html` is not among the current working
directory's entries, report the error and return — the data directory is not
created, no scan happens, and no TCP listener is bound.  Otherwise create
`data/` if missing, scan it for `*.json` files, warn when none are found, and
bind the listener on the fixed port. -/
def start_server (cwdFiles : List String) (dataDir : Option (List String)) :
    ServerStart :=
  if "index.html" ∉ cwdFiles then
    { boundPort := none
      dataDirCreated := false
      jsonFiles := []
      warnedNoJson := false }
  else
    let json_files := serverGlobJson dataDir
    { boundPort := some serverPort
      dataDirCreated := true
      jsonFiles := json_files
      warnedNoJson := json_files.isEmpty }

/-! ### Concrete fixtures used by witnesses and counterexamples -/

/-- Example data file whose content fails to parse as JSON
(`json.load` raises a `JSONDecodeError`). -/
def cexBadFile : DFile :=
  { name := "trial_b.json", data := .raw "bad", outcome := .decodeError "Expecting value" }

/-- Example stale `manifest.json` left in `data/` by a prior run. -/
def cexStaleManifest : DFile :=
  { name := "manifest.json", data := .raw "old manifest", outcome := .parsed }

/-- Example data directory holding a stale manifest and one malformed file. -/
def cexBadDir : DataDir := some [cexStaleManifest, cexBadFile]

/-! ### Properties of the code-point comparison -/

lemma char_eq_of_toNat_eq {a b : Char} (h : a.toNat = b.toNat) : a = b := by
  simpa [Char.ext_iff, UInt32.ext_iff] using h

lemma lexLe_total (as : List Char) : ∀ bs, lexLe as bs = true ∨ lexLe bs as = true := by
  induction as with
  | nil => intro bs; left; cases bs <;> rfl
  | cons a as ih =>
    intro bs
    cases bs with
    | nil => right; rfl
    | cons b bs =>
      rcases Nat.lt_trichotomy a.toNat b.toNat with h | h | h
      · left; simp [lexLe, h]
      · rcases ih bs with hle | hle
        · left; simp [lexLe, h, hle]
        · right; simp [lexLe, h.symm, hle]
      · right; simp [lexLe, h]

lemma lexLe_trans (as : List Char) :
    ∀ bs cs, lexLe as bs = true → lexLe bs cs = true → lexLe as cs = true := by
  induction as with
  | nil => intro bs cs _ _; cases cs <;> rfl
  | cons a as ih =>
    intro bs cs h1 h2
    cases bs with
    | nil => simp [lexLe] at h1
    | cons b bs =>
      cases cs with
      | nil => simp [lexLe] at h2
      | cons c cs =>
        simp only [lexLe] at h1 h2 ⊢
        by_cases hab : a.toNat < b.toNat
        · by_cases hbc : b.toNat < c.toNat
          · simp [Nat.lt_trans hab hbc]
          · by_cases hcb : c.toNat < b.toNat
            · simp [hbc, hcb] at h2
            · have hbc' : b.toNat = c.toNat :=
                Nat.le_antisymm (Nat.le_of_not_lt hcb) (Nat.le_of_not_lt hbc)
              simp [hbc' ▸ hab]
        · by_cases hba : b.toNat < a.toNat
          · simp [hab, hba] at h1
          · have hab' : a.toNat = b.toNat :=
              Nat.le_antisymm (Nat.le_of_not_lt hba) (Nat.le_of_not_lt hab)
            simp only [hab, hba, if_false, if_neg] at h1
            by_cases hbc : b.toNat < c.toNat
            · simp [hab' ▸ hbc]
            · by_cases hcb : c.toNat < b.toNat
              · simp [hbc, hcb] at h2
              · have hbc' : b.toNat = c.toNat :=
                  Nat.le_antisymm (Nat.le_of_not_lt hcb) (Nat.le_of_not_lt hbc)
                simp only [hbc, hcb, if_false, if_neg] at h2
                have hac : ¬ a.toNat < c.toNat := by
                  rw [hab', hbc']; exact Nat.lt_irrefl _
                have hca : ¬ c.toNat < a.toNat := by
                  rw [hab', hbc']; exact Nat.lt_irrefl _
                simp only [hac, hca, if_neg, if_false]
                exact ih bs cs h1 h2

lemma lexLe_antisymm (as : List Char) :
    ∀ bs, lexLe as bs = true → lexLe bs as = true → as = bs := by
  induction as with
  | nil =>
    intro bs _ h2
    cases bs with
    | nil => rfl
    | cons b bs => simp [lexLe] at h2
  | cons a as ih =>
    intro bs h1 h2
    cases bs with
    | nil => simp [lexLe] at h1
    | cons b bs =>
      simp only [lexLe] at h1 h2
      by_cases hab : a.toNat < b.toNat
      · simp [Nat.lt_asymm hab, hab] at h2
      · by_cases hba : b.toNat < a.toNat
        · simp [hab, hba] at h1
        · have hab' : a.toNat = b.toNat :=
            Nat.le_antisymm (Nat.le_of_not_lt hba) (Nat.le_of_not_lt hab)
          simp only [hab, hba, if_neg, if_false] at h1 h2
          rw [char_eq_of_toNat_eq hab', ih bs h1 h2]

instance : IsTotal String pyLe :=
  ⟨fun s t => lexLe_total s.data t.data⟩

instance : IsTrans String pyLe :=
  ⟨fun a b c => lexLe_trans a.data b.data c.data⟩

instance : IsAntisymm String pyLe :=
  ⟨fun a b h1 h2 => String.ext (lexLe_antisymm a.data b.data h1 h2)⟩

/-! ### Properties of validation -/

lemma failureEntry_eq_none_iff (f : DFile) : failureEntry f = none ↔ f.outcome = .parsed := by
  cases h : f.outcome <;> simp [failureEntry, h]

lemma validate_ok_iff (fs : List DFile) :
    (validate_json_files fs).2 = true ↔ ∀ f ∈ qualifyingFiles fs, f.outcome = .parsed := by
  simp only [validate_json_files, List.isEmpty_iff, List.filterMap_eq_nil_iff]
  constructor
  · intro h f hf
    exact (failureEntry_eq_none_iff f).mp (h f hf)
  · intro h f hf
    exact (failureEntry_eq_none_iff f).mpr (h f hf)

/-! ### Claim theorems -/

/-- C1: if at least one qualifying JSON file of the data directory fails to
parse or to be read, the builder's entry point does not invoke
`generate_manifest` and leaves the directory — in particular the prior
`data/manifest.json` entry, if any — exactly as it was. -/
theorem main_validation_gate (dir : DataDir) (now : String)
    (h : ∃ f ∈ qualifyingFiles (dirFiles dir), f.outcome ≠ .parsed) :
    (mainRun dir now).generateInvoked = false ∧
      (mainRun dir now).dataDir = dir ∧
      readDirFile (mainRun dir now).dataDir "manifest.json" =
        readDirFile dir "manifest.json" := by
  obtain ⟨f, hf, hbad⟩ := h
  have hv : ¬ (validate_json_files (dirFiles dir)).2 = true :=
    fun hok => hbad ((validate_ok_iff _).mp hok f hf)
  unfold mainRun
  rw [if_neg hv]
  exact ⟨rfl, rfl, rfl⟩

/-- C1 witness: on a directory holding a stale manifest and one malformed
file, the gate fires: `generate` is not invoked and the state is unchanged. -/
theorem main_validation_gate_witness :
    (mainRun cexBadDir "2024-01-01T00:00:00").generateInvoked = false ∧
      (mainRun cexBadDir "2024-01-01T00:00:00").dataDir = cexBadDir := by
  have h := main_validation_gate cexBadDir "2024-01-01T00:00:00"
    ⟨cexBadFile, by decide, by decide⟩
  exact ⟨h.1, h.2.1⟩

/-- C2: `generate_manifest` is deterministic in the set of enumerated names:
two runs over directories with the same set of filenames, in any enumeration
order, produce the same `files` sequence — sorted ascending in Python's
code-point string order — and the same `total_files` count. -/
theorem generate_manifest_deterministic (d1 d2 : List String) (t1 t2 : String)
    (h1 : d1.Nodup) (h2 : d2.Nodup)
    (hset : ∀ x, isQualifyingName x = true → (x ∈ d1 ↔ x ∈ d2)) :
    (generate_manifest d1 t1).files = (generate_manifest d2 t2).files ∧
      (generate_manifest d1 t1).total_files = (generate_manifest d2 t2).total_files ∧
      List.Sorted pyLe (generate_manifest d1 t1).files := by
  have hmem : ∀ x, x ∈ d1.filter isQualifyingName ↔ x ∈ d2.filter isQualifyingName := by
    intro x
    simp only [List.mem_filter]
    constructor
    · rintro ⟨hx, hq⟩
      exact ⟨(hset x hq).mp hx, hq⟩
    · rintro ⟨hx, hq⟩
      exact ⟨(hset x hq).mpr hx, hq⟩
  have hperm : List.Perm (d1.filter isQualifyingName) (d2.filter isQualifyingName) :=
    (List.perm_ext_iff_of_nodup (h1.filter _) (h2.filter _)).mpr hmem
  have hfiles : (generate_manifest d1 t1).files = (generate_manifest d2 t2).files :=
    List.eq_of_perm_of_sorted
      (((List.perm_insertionSort pyLe _).trans hperm).trans
        (List.perm_insertionSort pyLe _).symm)
      (List.sorted_insertionSort pyLe _) (List.sorted_insertionSort pyLe _)
  refine ⟨hfiles, ?_, List.sorted_insertionSort pyLe _⟩
  show (generate_manifest d1 t1).files.length = (generate_manifest d2 t2).files.length
  rw [hfiles]

/-- C2 witness: two directories with the same qualifying filenames — one of
them enumerated in a different order and holding an extra non-qualifying
entry — give the same sorted `files` and the same count. -/
theorem generate_manifest_deterministic_witness :
    (generate_manifest ["b.json", "notes.txt", "a.json"] "t1").files =
      (generate_manifest ["a.json", "b.json"] "t2").files ∧
    (generate_manifest ["b.json", "notes.txt", "a.json"] "t1").total_files =
      (generate_manifest ["a.json", "b.json"] "t2").total_files := by
  have h := generate_manifest_deterministic ["b.json", "notes.txt", "a.json"]
    ["a.json", "b.json"] "t1" "t2" (by decide) (by decide)
    (by
      intro x hq
      constructor
      · intro hx
        rcases (by simpa using hx : x = "b.json" ∨ x = "notes.txt" ∨ x = "a.json")
          with rfl | rfl | rfl
        · exact (by decide : ("b.json" : String) ∈ ["a.json", "b.json"])
        · exact absurd hq (by decide)
        · exact (by decide : ("a.json" : String) ∈ ["a.json", "b.json"])
      · intro hx
        rcases (by simpa using hx : x = "a.json" ∨ x = "b.json") with rfl | rfl
        · exact (by decide : ("a.json" : String) ∈ ["b.json", "notes.txt", "a.json"])
        · exact (by decide : ("b.json" : String) ∈ ["b.json", "notes.txt", "a.json"]))
  exact ⟨h.1, h.2.1⟩

/-- C3: no generated manifest ever lists `manifest.json` among its `files`,
and every listed entry matches the `*.json` glob, i.e. its name ends in the
suffix `.json`. -/
theorem manifest_excludes_own_output (names : List String) (now : String) :
    "manifest.json" ∉ (generate_manifest names now).files ∧
      ∀ f ∈ (generate_manifest names now).files, matchesJsonGlob f = true := by
  have hmem : ∀ x : String, x ∈ (generate_manifest names now).files ↔
      x ∈ names.filter isQualifyingName :=
    fun x => (List.perm_insertionSort pyLe _).mem_iff
  constructor
  · intro hc
    have hq := (List.mem_filter.mp ((hmem _).mp hc)).2
    simp [isQualifyingName] at hq
  · intro f hf
    have hq := (List.mem_filter.mp ((hmem _).mp hf)).2
    simp only [isQualifyingName, Bool.and_eq_true] at hq
    exact hq.1

/-- C3 witness: a directory holding a stale `manifest.json` and `b.json`
yields a manifest listing only `b.json`, whose name matches the glob. -/
theorem manifest_excludes_own_output_witness :
    "manifest.json" ∉ (generate_manifest ["manifest.json", "b.json"] "t").files ∧
      matchesJsonGlob "b.json" = true := by
  have h := manifest_excludes_own_output ["manifest.json", "b.json"] "t"
  exact ⟨h.1, h.2 "b.json" (by decide)⟩

/-- C4: in every generated manifest, `total_files` equals the length of the
`files` list. -/
theorem manifest_total_files_eq_length (names : List String) (now : String) :
    (generate_manifest names now).total_files =
      (generate_manifest names now).files.length := rfl

/-- C5: `validate_json_files` succeeds exactly when every qualifying file
parses; every failing qualifying file is recorded as a `(filename, reason)`
entry in the collected failure list (all failures in one pass, none thrown);
and an empty set of qualifying files yields success. -/
theorem validate_collects_all_failures (fs : List DFile) :
    ((validate_json_files fs).2 = true ↔
        ∀ f ∈ qualifyingFiles fs, f.outcome = .parsed) ∧
      (∀ f ∈ qualifyingFiles fs, ∀ e, failureEntry f = some e →
        e ∈ (validate_json_files fs).1) ∧
      (∀ f ∈ qualifyingFiles fs, f.outcome ≠ .parsed →
        ∃ reason, (f.name, reason) ∈ (validate_json_files fs).1) ∧
      (qualifyingFiles fs = [] → (validate_json_files fs).2 = true) := by
  refine ⟨validate_ok_iff fs, ?_, ?_, ?_⟩
  · intro f hf e he
    exact List.mem_filterMap.mpr ⟨f, hf, he⟩
  · intro f hf hbad
    cases ho : f.outcome with
    | parsed => exact absurd ho hbad
    | decodeError e =>
      exact ⟨e, List.mem_filterMap.mpr ⟨f, hf, by simp [failureEntry, ho]⟩⟩
    | readError e =>
      exact ⟨"Error reading file: " ++ e,
        List.mem_filterMap.mpr ⟨f, hf, by simp [failureEntry, ho]⟩⟩
  · intro hq
    simp [validate_json_files, hq]

/-- C5 witness: on the example directory, validation fails and the malformed
file's `(filename, reason)` entry is in the collected failure list. -/
theorem validate_collects_all_failures_witness :
    (validate_json_files [cexStaleManifest, cexBadFile]).2 = false ∧
      ("trial_b.json", "Expecting value") ∈
        (validate_json_files [cexStaleManifest, cexBadFile]).1 := by
  have h := validate_collects_all_failures [cexStaleManifest, cexBadFile]
  exact ⟨by decide,
    h.2.1 cexBadFile (by decide) ("trial_b.json", "Expecting value") (by decide)⟩

/-- C6: every HTTP response the handler emits — any status code, any headers
the base machinery buffered — carries the three cross-origin headers with
their exact fixed values, appended by the overridden `end_headers` before the
header block is finalized (the final header list is the buffered headers
followed by the three CORS headers). -/
theorem every_response_has_cors (status : Nat) (buffered : List (String × String)) :
    ("Access-Control-Allow-Origin", "*") ∈ (handlerResponse status buffered).headers ∧
      ("Access-Control-Allow-Methods", "GET, POST, OPTIONS") ∈
        (handlerResponse status buffered).headers ∧
      ("Access-Control-Allow-Headers", "Content-Type") ∈
        (handlerResponse status buffered).headers ∧
      (handlerResponse status buffered).headers = buffered ++ corsHeaders := by
  refine ⟨?_, ?_, ?_, rfl⟩ <;> simp [handlerResponse, end_headers, corsHeaders]

/-- C7: starting the server in a working directory lacking `index.html`
aborts before acquiring any network resource: no TCP listener is bound
(and the startup side effects after the check do not happen either). -/
theorem preflight_gate (cwdFiles : List String) (dataDir : Option (List String))
    (h : "index.html" ∉ cwdFiles) :
    (start_server cwdFiles dataDir).boundPort = none ∧
      (start_server cwdFiles dataDir).dataDirCreated = false := by
  unfold start_server
  rw [if_pos h]
  exact ⟨rfl, rfl⟩

/-- C7 witness: an empty working directory does not bind the port. -/
theorem preflight_gate_witness :
    (start_server [] (some ["a.json"])).boundPort = none ∧
      (start_server [] (some ["a.json"])).dataDirCreated = false :=
  preflight_gate [] (some ["a.json"]) (by decide)

/-- C8: for every data directory that is empty of qualifying files —
whether it does not exist (a nonexistent directory is enumerated as zero
entries without error, so its qualifying set is empty), is literally empty,
or holds only non-qualifying entries such as a stale `manifest.json` —
the generated manifest has `files = []` and `total_files = 0`, and
validation reports success. -/
theorem empty_or_missing_directory (dir : DataDir) (now : String)
    (h : qualifyingFiles (dirFiles dir) = []) :
    dirFiles none = [] ∧
      qualifyingFiles (dirFiles none) = [] ∧
      ((generateRun dir now).2).files = [] ∧
      ((generateRun dir now).2).total_files = 0 ∧
      (validate_json_files (dirFiles dir)).2 = true := by
  have hnil : ((dirFiles dir).map (fun f => f.name)).filter isQualifyingName = [] := by
    rw [List.filter_map]
    rw [show (isQualifyingName ∘ fun f : DFile => f.name) =
      (fun f : DFile => isQualifyingName f.name) from rfl]
    rw [show (dirFiles dir).filter (fun f => isQualifyingName f.name) = [] from h]
    rfl
  refine ⟨rfl, rfl, ?_, ?_, ?_⟩
  · show List.insertionSort pyLe
      (((dirFiles dir).map (fun f => f.name)).filter isQualifyingName) = []
    rw [hnil]
    rfl
  · show (List.insertionSort pyLe
      (((dirFiles dir).map (fun f => f.name)).filter isQualifyingName)).length = 0
    rw [hnil]
    rfl
  · refine (validate_ok_iff _).mpr (fun f hf => ?_)
    rw [h] at hf
    cases hf

/-- C8 witness: an existing directory holding only a stale `manifest.json`
(no qualifying file) yields an empty manifest and successful validation. -/
theorem empty_or_missing_directory_witness :
    ((generateRun (some [cexStaleManifest]) "t").2).files = [] ∧
      ((generateRun (some [cexStaleManifest]) "t").2).total_files = 0 ∧
      (validate_json_files (dirFiles (some [cexStaleManifest]))).2 = true := by
  have h := empty_or_missing_directory (some [cexStaleManifest]) "t" (by decide)
  exact ⟨h.2.2.1, h.2.2.2.1, h.2.2.2.2⟩

/-- C9 counterexample: on a directory with one malformed qualifying file,
validation fails and the builder aborts — yet the script falls off the end
of its `__main__` block without raising, so the process exit status is 0,
not the non-zero value the claim asserts. -/
theorem exit_status_counterexample :
    (mainRun cexBadDir "2024-01-01T00:00:01").validationOk = false ∧
      (mainRun cexBadDir "2024-01-01T00:00:01").generateInvoked = false ∧
      exitCode (mainRun cexBadDir "2024-01-01T00:00:01") = 0 := by
  refine ⟨?_, ?_, ?_⟩ <;> decide

/-- C9 (amended): when validation fails the builder aborts without invoking
`generate` or touching the directory, but the process exit status is 0 on
both paths (the script performs no explicit exit-status signaling), so
failure is reported only through printed messages and the absence of a
manifest write. -/
theorem exit_status_always_zero (dir : DataDir) (now : String) :
    exitCode (mainRun dir now) = 0 ∧
      ((validate_json_files (dirFiles dir)).2 = false →
        (mainRun dir now).generateInvoked = false ∧ (mainRun dir now).dataDir = dir) := by
  constructor
  · unfold mainRun exitCode
    split <;> rfl
  · intro hv
    unfold mainRun
    rw [if_neg (by simp [hv])]
    exact ⟨rfl, rfl⟩

/-- C9 amended-claim witness: on the example failing directory the exit
status is 0 and `generate` was not invoked. -/
theorem exit_status_always_zero_witness :
    exitCode (mainRun cexBadDir "t") = 0 ∧
      (mainRun cexBadDir "t").generateInvoked = false :=
  ⟨(exit_status_always_zero cexBadDir "t").1,
    ((exit_status_always_zero cexBadDir "t").2 (by decide)).1⟩

/-- C10: the server's startup scan counts every `*.json` entry of `data/`
with no exclusion rule — `manifest.json` itself is counted, unlike the
builder's qualifying-file filter — so a directory containing a generated
manifest never triggers the zero-files advisory warning, even with no data
files present. -/
theorem server_counts_manifest_json (d : List String) (h : "manifest.json" ∈ d) :
    "manifest.json" ∈ serverGlobJson (some d) ∧
      (start_server ["index.html"] (some d)).jsonFiles = serverGlobJson (some d) ∧
      (start_server ["index.html"] (some d)).warnedNoJson = false ∧
      "manifest.json" ∉ d.filter isQualifyingName := by
  have hglob : "manifest.json" ∈ serverGlobJson (some d) := by
    simp only [serverGlobJson]
    exact List.mem_filter.mpr ⟨h, by decide⟩
  have hidx : ¬ ("index.html" ∉ ["index.html"]) := by simp
  refine ⟨hglob, ?_, ?_, ?_⟩
  · unfold start_server
    rw [if_neg hidx]
  · unfold start_server
    rw [if_neg hidx]
    show (serverGlobJson (some d)).isEmpty = false
    cases hg : serverGlobJson (some d) with
    | nil => rw [hg] at hglob; cases hglob
    | cons x xs => rfl
  · intro hc
    have hq := (List.mem_filter.mp hc).2
    simp [isQualifyingName] at hq

/-- C10 witness: a data directory holding only `manifest.json` still counts
one JSON file and raises no zero-files warning. -/
theorem server_counts_manifest_json_witness :
    "manifest.json" ∈ serverGlobJson (some ["manifest.json"]) ∧
      (start_server ["index.html"] (some ["manifest.json"])).warnedNoJson = false := by
  have h := server_counts_manifest_json ["manifest.json"] (by decide)
  exact ⟨h.1, h.2.2.1⟩

end Dashboard
